import Mathlib

/-!
Shallow embedding of the recording/playback core of the Navio browser
extension, together with proofs settling the specification claims.

Embedded sources (paths relative to the repository root):
* `src/background/index.ts` — background service worker: recording session
  state machine and its message handlers.
* `src/content/recorder.ts` — per-page click recorder.
* `src/content/playback.ts` — playback engine.
* `src/utils/screenshot-processing.ts`, `src/constants/index.ts` —
  screenshot routing pipeline.
* `src/utils/validation.ts`, `src/utils/storage.ts` — flow validation,
  sanitization and persistence.
* the popup's save-flow screenshot-relocation loop (Popup component).

External platform facilities (DOM queries, canvas compression, base64 blob
decoding, zod string-format validators, the WHATWG `URL` constructor) are
modelled either as explicit function parameters or as small executable
models documented at their definition sites.  Machine integers are modelled
as `Nat`/`ℚ`; fallible code returns `Option`/`Except`.
-/

namespace Navio

/-! ## String utilities

JavaScript string operations used by the embedded code, modelled over
`List Char` / `String`.
-/

/-- Boolean test that `needle` occurs contiguously inside `haystack`;
models JavaScript `String.prototype.includes`. -/
def hasInfix : List Char → List Char → Bool
  | [], needle => needle.isEmpty
  | h :: t, needle => needle.isPrefixOf (h :: t) || hasInfix t needle

/-- JavaScript `haystack.includes(needle)`. -/
def strIncludes (haystack needle : String) : Bool :=
  hasInfix haystack.data needle.data

/-- JavaScript `s.toLowerCase()` (character-wise lowercasing). -/
def toLowerStr (s : String) : String :=
  String.mk (s.data.map Char.toLower)

/-- JavaScript `s.trim()`: strip whitespace from both ends. -/
def trimStr (s : String) : String :=
  String.mk (((s.data.dropWhile Char.isWhitespace).reverse.dropWhile
    Char.isWhitespace).reverse)

/-! ## WHATWG URL model

The embedded code calls the browser's `new URL(s)` constructor only to
(a) detect parse failure (it throws on input without a scheme) and
(b) read `parsed.protocol`.  We model exactly this scheme-level behaviour:
a string parses only if it begins with `[A-Za-z][A-Za-z0-9+.-]*:`; the
protocol is the lowercased scheme including the trailing colon.  (Host
validation for special schemes is not modelled; every claim settled here
depends only on scheme-level success/failure and on the protocol value.)
-/

/-- Characters allowed inside a URL scheme after the first. -/
def isSchemeChar (c : Char) : Bool :=
  c.isAlphanum || c == '+' || c == '-' || c == '.'

/-- Scan the scheme body: accumulate scheme characters until a `:`.
Returns the accumulated (reversed) scheme on success. -/
def schemeScan (acc : List Char) : List Char → Option (List Char)
  | [] => none
  | c :: rest =>
    if c == ':' then some acc.reverse
    else if isSchemeChar c then schemeScan (c :: acc) rest
    else none

/-- The value `urlProtocol s` is `some p` when `new URL(s)` succeeds with
`parsed.protocol = p` (lowercased scheme plus `":"`), and `none` when the
constructor throws for lack of a valid scheme. -/
def urlProtocol (s : String) : Option String :=
  match s.data with
  | [] => none
  | c :: rest =>
    if c.isAlpha then
      (schemeScan [c] rest).map (fun sch => String.mk (sch.map Char.toLower) ++ ":")
    else none

/-! ## Data model (`src/types/flows.ts`, `src/types/recording.ts`) -/

/-- The `StepType` from `src/types/flows.ts`. -/
inductive StepType where
  | click
  | navigation
  | input
  | visibility
  | manual
  deriving Repr, DecidableEq

/-- The optional `meta` bag of a `FlowStep`.  The recorder populates
`elementText`, `nodeType`, the screenshot fields and the timestamps;
every field is optional in the source. -/
structure StepMeta where
  elementText : Option String := none
  nodeType : Option String := none
  timestamp : Option String := none
  screenshotThumb : Option String := none
  screenshotFull : Option String := none
  screenshotIndexedDB : Option Bool := none
  createdAt : Option String := none
  deriving Repr, DecidableEq

/-- The `FlowStep` from `src/types/flows.ts`. -/
structure FlowStep where
  id : String
  type : StepType
  selector : String
  url : String
  explanation : String
  order : Nat
  meta : Option StepMeta := none
  deriving Repr, DecidableEq

/-- The `Flow` from `src/types/flows.ts` (the `meta` bag carries
`description` and `tags`). -/
structure Flow where
  id : String
  name : String
  createdAt : String
  updatedAt : Option String := none
  steps : List FlowStep
  metaDescription : Option String := none
  metaTags : Option (List String) := none
  deriving Repr, DecidableEq

/-- The `RecordingState` from `src/types/recording.ts`. -/
inductive RecordingState where
  | idle
  | recording
  | paused
  deriving Repr, DecidableEq

/-- The `RecordingSession` from `src/types/recording.ts`. -/
structure RecordingSession where
  state : RecordingState
  steps : List FlowStep
  currentStepIndex : Nat
  startTime : Nat
  tabId : Option Nat := none
  deriving Repr, DecidableEq

/-! ## Background service worker (`src/background/index.ts`)

The worker holds one module-level mutable `recordingSession` variable and
mirrors it into `chrome.storage.local` under `navio_recording_session`
through `saveRecordingSession` / `loadRecordingSession`.  We model the
pair as an explicit state record; `storedSession` is the value persisted
in storage. -/

/-- The background worker's session-related mutable state:
the in-memory `recordingSession` variable and the session persisted in
`chrome.storage.local`. -/
structure BackgroundState where
  recordingSession : Option RecordingSession := none
  storedSession : Option RecordingSession := none
  deriving Repr, DecidableEq

/-- The `saveRecordingSession`: writes the session to storage (or removes the
key when passed `null`). -/
def saveRecordingSession (st : BackgroundState) (session : Option RecordingSession) :
    BackgroundState :=
  { st with storedSession := session }

/-- Response of the `ADD_STEP` handler: a `{success, error?}` envelope. -/
structure AddStepResponse where
  success : Bool
  error : Option String := none
  deriving Repr, DecidableEq

/-- The `ADD_STEP` handler from `src/background/index.ts`.  The payload is
`Option FlowStep` because the handler also tests the truthiness of
`message.step`.  Accepted only when a session exists in state
`recording`: the step's `order` is overwritten with the current step
count, the step is appended, `currentStepIndex` updated and the session
persisted.  Otherwise it reports failure and changes nothing. -/
def handleAddStep (st : BackgroundState) (payload : Option FlowStep) :
    AddStepResponse × BackgroundState :=
  match st.recordingSession, payload with
  | some session, some step =>
    if session.state = RecordingState.recording then
      let step' := { step with order := session.steps.length }
      let steps' := session.steps ++ [step']
      let session' := { session with
        steps := steps'
        currentStepIndex := steps'.length - 1 }
      ({ success := true }, saveRecordingSession { st with recordingSession := some session' } (some session'))
    else
      ({ success := false, error := some "No active recording session" }, st)
  | _, _ =>
    ({ success := false, error := some "No active recording session" }, st)

/-- Response of the `START_RECORDING` handler: a `{success, data?:
{state}, error?}` envelope. -/
structure StartResponse where
  success : Bool
  dataState : Option RecordingState := none
  error : Option String := none
  deriving Repr, DecidableEq

/-- The `START_RECORDING` handler from `src/background/index.ts`.
`senderTab` is `sender.tab?.id`; when absent, the handler queries the
active tab (`activeTab`).  If neither yields a tab it fails.  Otherwise
it unconditionally overwrites `recordingSession` with a fresh session
(state `recording`, empty steps) for the resolved tab, persists it, and
forwards the message to the content script: `contentResponse` is `some r`
when `chrome.tabs.sendMessage` resolves with `r`, `none` when it throws
(content script not ready), in which case the session is kept and a
synthetic `{success:true, data:{state:"recording"}}` is returned. -/
def handleStartRecording (st : BackgroundState) (senderTab activeTab : Option Nat)
    (contentResponse : Option StartResponse) (now : Nat) :
    StartResponse × BackgroundState :=
  match senderTab.orElse (fun _ => activeTab) with
  | none => ({ success := false, error := some "No active tab" }, st)
  | some tabId =>
    let session : RecordingSession :=
      { state := RecordingState.recording
        steps := []
        currentStepIndex := 0
        startTime := now
        tabId := some tabId }
    let st' := saveRecordingSession { st with recordingSession := some session } (some session)
    match contentResponse with
    | some r => (r, st')
    | none => ({ success := true, dataState := some RecordingState.recording }, st')

/-- The `{isRecording, stepCount, state, tabId?}` payload returned by
`GET_RECORDING_STATE`. -/
structure RecordingStateInfo where
  isRecording : Bool
  stepCount : Nat
  state : RecordingState
  tabId : Option Nat := none
  deriving Repr, DecidableEq

/-- Response of the `GET_RECORDING_STATE` handler. -/
structure StateResponse where
  success : Bool
  data : Option RecordingStateInfo := none
  error : Option String := none
  deriving Repr, DecidableEq

/-- The idle `GET_RECORDING_STATE` response
`{success:true, data:{isRecording:false, stepCount:0, state:"idle"}}`. -/
def idleStateResponse : StateResponse :=
  { success := true
    data := some { isRecording := false, stepCount := 0, state := RecordingState.idle } }

/-- The `GET_RECORDING_STATE` handler from `src/background/index.ts`.
Resolution order in the source: (1) the in-memory session; (2) the
session persisted in storage, which is also loaded back into memory;
(3) when the sender is a tab, the message is forwarded to that tab's
content script (`contentResponse` is `some r` when the content script
answers `r`, `none` when `chrome.tabs.sendMessage` throws); (4) the
idle response. -/
def handleGetRecordingState (st : BackgroundState) (senderTab : Option Nat)
    (contentResponse : Option StateResponse) : StateResponse × BackgroundState :=
  match st.recordingSession with
  | some session =>
    ({ success := true
       data := some
         { isRecording := session.state = RecordingState.recording
           stepCount := session.steps.length
           state := session.state
           tabId := session.tabId } }, st)
  | none =>
    match st.storedSession with
    | some restored =>
      ({ success := true
         data := some
           { isRecording := restored.state = RecordingState.recording
             stepCount := restored.steps.length
             state := restored.state } },
       { st with recordingSession := some restored })
    | none =>
      match senderTab with
      | some _ =>
        match contentResponse with
        | some r => (r, st)
        | none => (idleStateResponse, st)
      | none => (idleStateResponse, st)

/-- Run a sequence of `ADD_STEP` messages through the background handler,
keeping only the final state. -/
def runAddSteps (st : BackgroundState) (payloads : List (Option FlowStep)) :
    BackgroundState :=
  payloads.foldl (fun s p => (handleAddStep s p).2) st

/-! ## Screenshot pipeline (`src/utils/screenshot-processing.ts`,
`src/constants/index.ts`)

`compressImage` re-encodes an image through a canvas — a DOM facility we
cannot model bit-for-bit, so the pipeline takes the compressor as an
explicit parameter `compress quality maxWidth dataUrl`.  Likewise
`dataUrlToBlob(raw).size` (base64 decoding) is taken as a parameter
`blobSize : String → Nat` giving the byte length of the decoded blob.
The routing logic itself (threshold comparison, which quality and width
are requested, which fields are populated) is translated directly from
the source. -/

/-- The `SCREENSHOT_CONFIG` from `src/constants/index.ts`. -/
structure ScreenshotConfig where
  THUMBNAIL_MAX_WIDTH : Nat
  FULL_SIZE_THRESHOLD_KB : Nat
  THUMBNAIL_QUALITY : ℚ
  FULL_COMPRESSION_QUALITY : ℚ
  DEFAULT_QUALITY : ℚ

/-- The constant object from `src/constants/index.ts`. -/
def SCREENSHOT_CONFIG : ScreenshotConfig :=
  { THUMBNAIL_MAX_WIDTH := 320
    FULL_SIZE_THRESHOLD_KB := 200
    THUMBNAIL_QUALITY := 0.7
    FULL_COMPRESSION_QUALITY := 0.85
    DEFAULT_QUALITY := 0.75 }

/-- The `ScreenshotResult` from `src/utils/screenshot-processing.ts`. -/
structure ScreenshotResult where
  thumbnail : String
  full : Option String := none
  indexedDB : Option Bool := none
  deriving Repr, DecidableEq

/-- The `generateThumbnail`: compress at thumbnail quality, bounded by the
thumbnail maximum width. -/
def generateThumbnail (compress : ℚ → Option Nat → String → String) (dataUrl : String) :
    String :=
  compress SCREENSHOT_CONFIG.THUMBNAIL_QUALITY (some SCREENSHOT_CONFIG.THUMBNAIL_MAX_WIDTH) dataUrl

/-- The `captureAndProcessScreenshot` from `src/utils/screenshot-processing.ts`:
always generate a thumbnail; compute the full screenshot's size in KB; if
strictly below the threshold, lightly compress the full image
(quality 0.85) and return it inline with `indexedDB := false`; otherwise
return the raw data URL with `indexedDB := true` (it is relocated to
IndexedDB when the flow is saved). -/
def captureAndProcessScreenshot (compress : ℚ → Option Nat → String → String)
    (blobSize : String → Nat) (rawDataUrl : String) : ScreenshotResult :=
  let thumbnail := generateThumbnail compress rawDataUrl
  let fullSizeKB : ℚ := (blobSize rawDataUrl : ℚ) / 1024
  if fullSizeKB < (SCREENSHOT_CONFIG.FULL_SIZE_THRESHOLD_KB : ℚ) then
    { thumbnail
      full := some (compress SCREENSHOT_CONFIG.FULL_COMPRESSION_QUALITY none rawDataUrl)
      indexedDB := some false }
  else
    { thumbnail
      full := some rawDataUrl
      indexedDB := some true }

/-- IndexedDB blob store model: a list of `(key, blob)` entries, where
`saveScreenshot` keys entries by `flowId ++ "_" ++ stepId`
(`generateKey` in `src/utils/indexeddb.ts`). -/
def saveScreenshot (store : List (String × String)) (flowId stepId blob : String) :
    List (String × String) :=
  (flowId ++ "_" ++ stepId, blob) :: store

/-- The screenshot-relocation loop body run for each pending step when a
flow is saved (popup `handleSaveFlow`): when the step's meta carries
`screenshotIndexedDB` truthy and a truthy (non-empty) `screenshotFull`,
the full data URL is converted to a blob, stored in IndexedDB under
`(flowId, stepId)`, and the temporary `screenshotFull` field is deleted
from the step's meta.  Otherwise the step and store are untouched. -/
def relocateStepScreenshot (flowId : String) (store : List (String × String))
    (step : FlowStep) : FlowStep × List (String × String) :=
  match step.meta with
  | some m =>
    if m.screenshotIndexedDB = some true ∧ m.screenshotFull.getD "" ≠ "" then
      ({ step with meta := some { m with screenshotFull := none } },
       saveScreenshot store flowId step.id (m.screenshotFull.getD ""))
    else
      (step, store)
  | none => (step, store)

/-! ## Recorder (`src/content/recorder.ts`, screenshot-based revision)

DOM elements are modelled as records carrying exactly the features the
recorder and the playback engine inspect: tag name, text content,
aria-label, the `instanceof` facts, input/button type, placeholder, the
text of the closest enclosing form (when one exists) and whether a
`[data-navio-extension]` ancestor exists. -/

/-- Model of a DOM element as observed by the recorder and playback. -/
structure DomElement where
  tagName : String
  textContent : Option String := none
  ariaLabel : Option String := none
  isHtmlElement : Bool := true
  isButtonElement : Bool := false
  buttonType : String := ""
  isAnchorElement : Bool := false
  isInputElement : Bool := false
  inputType : String := ""
  placeholder : String := ""
  closestFormText : Option String := none
  hasNavioExtensionAncestor : Bool := false
  deriving Repr, DecidableEq

/-- The `getElementText` from `src/utils/selectors.ts`:
`element.textContent?.trim() || ""`. -/
def getElementText (e : DomElement) : String :=
  trimStr (e.textContent.getD "")

/-- The `getElementNodeType` from `src/utils/selectors.ts`:
`element.tagName.toLowerCase()`. -/
def getElementNodeType (e : DomElement) : String :=
  toLowerStr e.tagName

/-- The `createFlowStep` from `src/utils/storage.ts`: builds a step with a
fresh uuid (passed in as `id`, uuid generation being an external random
source) and timestamps `now` (ISO string). -/
def createFlowStep (id : String) (type : StepType) (selector url explanation : String)
    (order : Nat) (meta : StepMeta) (now : String) : FlowStep :=
  { id
    type
    selector
    url
    explanation
    order
    meta := some { meta with timestamp := some now, createdAt := some now } }

/-- The `generateStepExplanation` from `src/content/recorder.ts`
(screenshot-based revision): derive a label from button/link text, input
placeholder/type, element text or the tag name, then truncate to 200
characters with an ellipsis. -/
def generateStepExplanation (e : DomElement) (text : String) : String :=
  let explanation :=
    if e.isButtonElement || e.tagName == "BUTTON" then
      if text ≠ "" then "Click " ++ text else "Click button"
    else if e.isAnchorElement || e.tagName == "A" then
      if text ≠ "" then "Click " ++ text else "Click link"
    else if e.isInputElement then
      if e.placeholder ≠ "" then "Click " ++ e.placeholder
      else if e.inputType ≠ "" then "Click " ++ e.inputType ++ " input"
      else "Click input"
    else if text ≠ "" then "Click " ++ text
    else "Click " ++ toLowerStr e.tagName
  if explanation.length > 200 then
    String.mk (explanation.data.take 197) ++ "..."
  else explanation

/-- The recorder's listener-related state
(`isRecording` / `isPaused` flags of the `Recorder` class). -/
structure RecorderState where
  isRecording : Bool := false
  isPaused : Bool := false
  deriving Repr, DecidableEq

/-- The screenshot fields the recorder merges into the step meta after a
successful capture round-trip (`screenshotData` in `captureClick`). -/
structure ScreenshotData where
  screenshotThumb : Option String := none
  screenshotFull : Option String := none
  screenshotIndexedDB : Option Bool := none
  deriving Repr, DecidableEq

/-- The `captureClick` from `src/content/recorder.ts`: resolve element text
and node type, generate the explanation, merge any captured screenshot
data, and build the forwarded step (order 0; the background assigns the
real order).  `screenshot` is `none` when capture failed or no tab id
was available (the step is still produced). -/
def captureClick (e : DomElement) (url : String) (screenshot : Option ScreenshotData)
    (id now : String) : FlowStep :=
  let elementText := getElementText e
  let nodeType := getElementNodeType e
  let explanation := generateStepExplanation e elementText
  let meta : StepMeta :=
    { elementText := some elementText
      nodeType := some nodeType
      screenshotThumb := (screenshot.map ScreenshotData.screenshotThumb).getD none
      screenshotFull := (screenshot.map ScreenshotData.screenshotFull).getD none
      screenshotIndexedDB := (screenshot.map ScreenshotData.screenshotIndexedDB).getD none }
  createFlowStep id StepType.click "" url explanation 0 meta now

/-- The capture-phase click handler attached by `attachClickListener`
(`src/content/recorder.ts` lines 352-391).  Returns the step forwarded
to the background (via `onStepCaptured`), or `none` when the click is
ignored: recorder not recording or paused, click inside an
extension-owned overlay (`target.closest("[data-navio-extension]")`),
or click on a password input. -/
def handleClick (rec : RecorderState) (target : DomElement) (url : String)
    (screenshot : Option ScreenshotData) (id now : String) : Option FlowStep :=
  if !rec.isRecording || rec.isPaused then none
  else if target.hasNavioExtensionAncestor then none
  else if target.isInputElement && target.inputType == "password" then none
  else some (captureClick target url screenshot id now)

/-! ## Playback engine (`src/content/playback.ts`)

The page is abstracted as a resolution function
`resolve : String → Option DomElement` (the combined
`document.querySelector` / XPath lookup of `findElement`, with lookup
errors caught in the source and mapped to `null`) plus the current
`window.location.href`.  The `Playback` class fields become an explicit
state record; callback invocations (`onStepChanged`,
`onElementNotFound`, ...) are returned as events. -/

/-- The `Playback` class's mutable fields.  `highlight`/`tooltip` hold
the overlay handles (recorded with the element they attach to),
`mutationObserver`/`keyboardHandler` record whether the observer and the
keydown listener are installed. -/
structure PlaybackState where
  isPlaying : Bool := false
  currentStepIndex : Nat := 0
  flow : Option Flow := none
  highlight : Option DomElement := none
  tooltip : Option DomElement := none
  mutationObserver : Bool := false
  keyboardHandler : Bool := false
  deriving Repr, DecidableEq

/-- Callback invocations observable from outside the playback engine. -/
inductive PlaybackEvent where
  | stepChanged (index : Nat)
  | elementNotFound
  | playbackStateChanged (isPlaying : Bool)
  deriving Repr, DecidableEq

/-- The `cleanupOverlays`: destroy the highlight and tooltip overlays if
present and disconnect the mutation observer if present. -/
def cleanupOverlays (s : PlaybackState) : PlaybackState :=
  let s1 := if s.highlight.isSome then { s with highlight := none } else s
  let s2 := if s1.tooltip.isSome then { s1 with tooltip := none } else s1
  if s2.mutationObserver then { s2 with mutationObserver := false } else s2

/-- The `cleanup`: overlay cleanup plus detaching the keydown listener if
attached. -/
def cleanup (s : PlaybackState) : PlaybackState :=
  let s1 := cleanupOverlays s
  if s1.keyboardHandler then { s1 with keyboardHandler := false } else s1

/-- The `stop` from `src/content/playback.ts`: clear `isPlaying`, run
`cleanup`, fire `onPlaybackStateChanged(false)` (an event with no state
effect), clear the flow and reset the cursor.  The function is total:
no statement in the source can throw. -/
def stop (s : PlaybackState) : PlaybackState :=
  let s1 := { s with isPlaying := false }
  let s2 := cleanup s1
  { s2 with flow := none, currentStepIndex := 0 }

/-- The `findElement` from `src/content/playback.ts`: empty selectors resolve
to nothing; otherwise the CSS/XPath lookup (abstracted as `resolve`,
with lookup exceptions caught and mapped to `null` in the source) is
consulted. -/
def findElement (resolve : String → Option DomElement) (selector : String) :
    Option DomElement :=
  if selector == "" then none else resolve selector

/-- The `checkUrlMatch`: constructs `new URL(window.location.href)` and
`new URL(step.url)`; a pathname mismatch only logs a warning (no state
effect), but an unparseable URL makes the constructor throw, modelled as
`Except.error`. -/
def checkUrlMatch (currentHref : String) (step : FlowStep) : Except String Unit :=
  match urlProtocol currentHref with
  | none => Except.error "Invalid URL"
  | some _ =>
    match urlProtocol step.url with
    | none => Except.error "Invalid URL"
    | some _ => Except.ok ()

/-- The `renderOverlays`: clean up the previous overlays, then install a new
highlight and tooltip on the element and start observing mutations
(`observeElement`; the auto-scroll has no engine-state effect). -/
def renderOverlays (s : PlaybackState) (e : DomElement) : PlaybackState :=
  let s1 := cleanupOverlays s
  { s1 with highlight := some e, tooltip := some e, mutationObserver := true }

/-- The `handleElementNotFound`: tear down the overlays and fire the
`onElementNotFound` callback. -/
def handleElementNotFound (s : PlaybackState) : PlaybackState × List PlaybackEvent :=
  (cleanupOverlays s, [PlaybackEvent.elementNotFound])

/-- Outcome of a `goToStep` call.  `thrown = some msg` models an uncaught
exception propagating to the caller; the `state` field records the
engine state at that point (in JavaScript, field mutations made before
the throw persist). -/
structure GoToStepResult where
  thrown : Option String := none
  state : PlaybackState
  events : List PlaybackEvent := []
  deriving Repr, DecidableEq

/-- The `goToStep` from `src/content/playback.ts`: bounds-checked no-op when
there is no flow or the index is out of range; otherwise set the cursor,
check the URL (the `URL` constructor may throw), resolve the step's
selector, and either render overlays and fire `onStepChanged`, or run
`handleElementNotFound`. -/
def goToStep (resolve : String → Option DomElement) (currentHref : String)
    (s : PlaybackState) (index : Nat) : GoToStepResult :=
  match s.flow with
  | none => { state := s }
  | some flow =>
    if h : index < flow.steps.length then
      let s1 := { s with currentStepIndex := index }
      let step := flow.steps.get ⟨index, h⟩
      match checkUrlMatch currentHref step with
      | Except.error msg => { thrown := some msg, state := s1 }
      | Except.ok _ =>
        match findElement resolve step.selector with
        | some e =>
          { state := renderOverlays s1 e, events := [PlaybackEvent.stepChanged index] }
        | none =>
          let r := handleElementNotFound s1
          { state := r.1, events := r.2 }
    else { state := s }

/-- The keyword denylist from `isDangerousAction`. -/
def dangerousKeywords : List String :=
  ["delete", "remove", "destroy", "clear", "reset", "cancel", "close",
   "logout", "sign out"]

/-- The `isDangerousAction` from `src/content/playback.ts`: non-`HTMLElement`
nodes are never flagged; otherwise the lowercased text content, the
lowercased `aria-label`, and — for a submit button inside a form — the
form's lowercased text are checked against the denylist. -/
def isDangerousAction (e : DomElement) : Bool :=
  if !e.isHtmlElement then false
  else
    let text := toLowerStr (e.textContent.getD "")
    if dangerousKeywords.any (fun kw => strIncludes text kw) then true
    else
      let ariaLabel := toLowerStr (e.ariaLabel.getD "")
      if dangerousKeywords.any (fun kw => strIncludes ariaLabel kw) then true
      else if e.isButtonElement && e.buttonType == "submit" then
        match e.closestFormText with
        | some formText =>
          dangerousKeywords.any (fun kw => strIncludes (toLowerStr formText) kw)
        | none => false
      else false

/-- What `performStepAction` did: whether the element was clicked,
whether a navigation was triggered, whether `onActionPerformed` fired,
and whether a dangerous action was skipped. -/
structure ActionResult where
  clicked : Bool := false
  navigated : Bool := false
  actionPerformed : Bool := false
  skippedDangerous : Bool := false
  deriving Repr, DecidableEq

/-- The `performStepAction` from `src/content/playback.ts`: for `click`
steps, resolve the element; a dangerous element is skipped (logged, no
click, no callback); otherwise an `HTMLElement` is clicked and
`onActionPerformed` fires.  `navigation` steps navigate when the step
URL is non-empty and differs from the current location.  `input`,
`visibility` and `manual` steps perform no action.  The whole body is
wrapped in try/catch in the source, so the function is total. -/
def performStepAction (resolve : String → Option DomElement) (currentHref : String)
    (step : FlowStep) : ActionResult :=
  match step.type with
  | StepType.click =>
    match findElement resolve step.selector with
    | some e =>
      if isDangerousAction e then { skippedDangerous := true }
      else if e.isHtmlElement then { clicked := true, actionPerformed := true }
      else {}
    | none => {}
  | StepType.navigation =>
    if step.url ≠ "" ∧ step.url ≠ currentHref then
      { navigated := true, actionPerformed := true }
    else {}
  | _ => {}

/-- The `next` from `src/content/playback.ts`: no-op without a flow or with
the cursor past the end; otherwise perform the current step's action,
then (unless already on the last step) advance the cursor via `goToStep`
after the settle delay.  Returns the action outcome together with the
`goToStep` result. -/
def next (resolve : String → Option DomElement) (currentHref : String)
    (s : PlaybackState) : ActionResult × GoToStepResult :=
  match s.flow with
  | none => ({}, { state := s })
  | some flow =>
    if h : s.currentStepIndex < flow.steps.length then
      let step := flow.steps.get ⟨s.currentStepIndex, h⟩
      let result := performStepAction resolve currentHref step
      if s.currentStepIndex < flow.steps.length - 1 then
        (result, goToStep resolve currentHref s (s.currentStepIndex + 1))
      else (result, { state := s })
    else ({}, { state := s })

/-! ## Validation and storage (`src/utils/validation.ts`,
`src/utils/storage.ts`)

`sanitizeSelector` applies three global case-insensitive regex
replacements; we implement each as a left-to-right scanner over the
character list with exactly the regex's matching discipline.  The zod
string-format validators `uuid` and `datetime` are library internals
taken as parameters; `z.string().url()` succeeds exactly when the `URL`
constructor does, which is `urlProtocol`. -/

/-- Case-insensitive character equality (the regex `i` flag). -/
def charEqCI (a b : Char) : Bool :=
  a.toLower == b.toLower

/-- Case-insensitively strip `pat` from the front of `s`. -/
def stripPrefixCI : List Char → List Char → Option (List Char)
  | [], s => some s
  | _ :: _, [] => none
  | p :: ps, c :: cs => if charEqCI p c then stripPrefixCI ps cs else none

theorem stripPrefixCI_length :
    ∀ (p s r : List Char), stripPrefixCI p s = some r → r.length + p.length = s.length := by
  intro p
  induction p with
  | nil => intro s r h; simp [stripPrefixCI] at h; simp [h]
  | cons p ps ih =>
    intro s r h
    cases s with
    | nil => simp [stripPrefixCI] at h
    | cons c cs =>
      simp only [stripPrefixCI] at h
      split at h
      · have := ih cs r h
        simp only [List.length_cons]
        omega
      · exact absurd h (by simp)

/-- Regex `/javascript:/gi` global replacement with the empty string:
scan left to right, removing each occurrence (the scan continues on the
input after the removed match, as the JS engine does). -/
def removeJavascriptColon : List Char → List Char
  | [] => []
  | c :: cs =>
    match h : stripPrefixCI ("javascript:".data) (c :: cs) with
    | some rest =>
      have : rest.length < cs.length + 1 := by
        have hlen := stripPrefixCI_length _ _ _ h
        simp at hlen
        omega
      removeJavascriptColon rest
    | none => c :: removeJavascriptColon cs
termination_by s => s.length

/-- JS regex `\w`: `[A-Za-z0-9_]`. -/
def isWordChar (c : Char) : Bool :=
  c.isAlphanum || c == '_'

theorem length_dropWhile_le (p : Char → Bool) (l : List Char) :
    (l.dropWhile p).length ≤ l.length := by
  induction l with
  | nil => simp
  | cons c cs ih =>
    simp only [List.dropWhile]
    split
    · exact Nat.le_succ_of_le ih
    · exact Nat.le_refl _

/-- Try to match the regex `on\w+\s*=` (case-insensitively) at the head
of `s`; on success return the characters after the match. -/
def matchEventHandler (s : List Char) : Option (List Char) :=
  match stripPrefixCI ("on".data) s with
  | none => none
  | some rest =>
    if (rest.takeWhile isWordChar).isEmpty then none
    else
      match (rest.dropWhile isWordChar).dropWhile Char.isWhitespace with
      | '=' :: tail => some tail
      | _ => none

theorem matchEventHandler_length (s r : List Char) (h : matchEventHandler s = some r) :
    r.length < s.length := by
  unfold matchEventHandler at h
  split at h
  · simp at h
  · rename_i rest hp
    have hrest := stripPrefixCI_length _ _ _ hp
    simp at hrest
    split at h
    · simp at h
    · split at h
      · rename_i tail hd
        cases h
        have h1 : (rest.dropWhile isWordChar).length ≤ rest.length :=
          length_dropWhile_le _ _
        have h2 : ((rest.dropWhile isWordChar).dropWhile Char.isWhitespace).length ≤
            (rest.dropWhile isWordChar).length := length_dropWhile_le _ _
        rw [hd] at h2
        simp at h2
        omega
      · simp at h

/-- Regex `/on\w+\s*=/gi` global replacement with the empty string. -/
def removeEventHandlers : List Char → List Char
  | [] => []
  | c :: cs =>
    match h : matchEventHandler (c :: cs) with
    | some rest =>
      have : rest.length < cs.length + 1 := by
        have := matchEventHandler_length _ _ h
        simpa using this
      removeEventHandlers rest
    | none => c :: removeEventHandlers cs
termination_by s => s.length

/-- Consume the regex fragment `[^>]*>`: characters up to and including
the first `>`.  Fails when no `>` remains (the surrounding pattern then
has no match at this position). -/
def consumeToGt : List Char → Option (List Char)
  | [] => none
  | c :: cs => if c == '>' then some cs else consumeToGt cs

theorem consumeToGt_length (s r : List Char) (h : consumeToGt s = some r) :
    r.length < s.length := by
  induction s with
  | nil => simp [consumeToGt] at h
  | cons c cs ih =>
    simp only [consumeToGt] at h
    split at h
    · cases h; simp
    · have := ih h
      simp only [List.length_cons]
      omega

/-- Consume the regex fragment `.*?<\/script>` (case-insensitive, lazy):
find the first `</script>`, failing at a line terminator or at the end
of input (the JS `.` does not match line terminators). -/
def consumeToCloseScript : List Char → Option (List Char)
  | [] => none
  | c :: cs =>
    match stripPrefixCI ("</script>".data) (c :: cs) with
    | some rest => some rest
    | none =>
      if c == '\n' || c == '\r' then none
      else consumeToCloseScript cs

theorem consumeToCloseScript_length (s r : List Char)
    (h : consumeToCloseScript s = some r) : r.length < s.length := by
  induction s with
  | nil => simp [consumeToCloseScript] at h
  | cons c cs ih =>
    simp only [consumeToCloseScript] at h
    split at h
    · rename_i rest hp
      cases h
      have := stripPrefixCI_length _ _ _ hp
      simp at this
      simp only [List.length_cons]
      omega
    · split at h
      · simp at h
      · have := ih h
        simp only [List.length_cons]
        omega

/-- Try to match the regex `<script[^>]*>.*?<\/script>` at the head of
`s`; on success return the characters after the whole match. -/
def matchScriptTag (s : List Char) : Option (List Char) :=
  match stripPrefixCI ("<script".data) s with
  | none => none
  | some rest =>
    match consumeToGt rest with
    | none => none
    | some rest2 => consumeToCloseScript rest2

theorem matchScriptTag_length (s r : List Char) (h : matchScriptTag s = some r) :
    r.length < s.length := by
  unfold matchScriptTag at h
  split at h
  · simp at h
  · rename_i rest hp
    split at h
    · simp at h
    · rename_i rest2 hg
      have h1 := stripPrefixCI_length _ _ _ hp
      have h2 := consumeToGt_length _ _ hg
      have h3 := consumeToCloseScript_length _ _ h
      simp at h1
      omega

/-- Regex `/<script[^>]*>.*?<\/script>/gi` global replacement with the
empty string. -/
def removeScriptTags : List Char → List Char
  | [] => []
  | c :: cs =>
    match h : matchScriptTag (c :: cs) with
    | some rest =>
      have : rest.length < cs.length + 1 := by
        have := matchScriptTag_length _ _ h
        simpa using this
      removeScriptTags rest
    | none => c :: removeScriptTags cs
termination_by s => s.length

/-- The `sanitizeSelector` from `src/utils/validation.ts`: strip script
tags, `javascript:` protocols and inline event handlers, then trim and
truncate to 1000 characters. -/
def sanitizeSelector (selector : String) : String :=
  let s1 := String.mk (removeScriptTags selector.data)
  let s2 := String.mk (removeJavascriptColon s1.data)
  let s3 := String.mk (removeEventHandlers s2.data)
  String.mk ((trimStr s3).data.take 1000)

/-- The `sanitizeUrl` from `src/utils/validation.ts`: parse with the `URL`
constructor (`""` on throw); return `""` unless the protocol is `http:`
or `https:`, the original string otherwise. -/
def sanitizeUrl (url : String) : String :=
  match urlProtocol url with
  | none => ""
  | some protocol =>
    if protocol ≠ "http:" ∧ protocol ≠ "https:" then "" else url

/-- The `FlowStepSchema.parse`: `id` must be a uuid (zod's format validator,
taken as the parameter `isUuid`), `type` is the step enum (total in this
model), `selector` any string, `url` must satisfy `z.string().url()`
(the `URL` constructor succeeds), `explanation` 1–200 characters,
`order` a non-negative integer (a `Nat` here).  zod strips object keys
absent from the schema, so `meta.screenshotFull` and
`meta.screenshotIndexedDB` are dropped while the five declared optional
keys survive.  Returns `none` where the source throws a `ZodError`. -/
def parseFlowStepSchema (isUuid : String → Bool) (s : FlowStep) : Option FlowStep :=
  if isUuid s.id ∧ (urlProtocol s.url).isSome
      ∧ 1 ≤ s.explanation.length ∧ s.explanation.length ≤ 200 then
    some { s with meta := s.meta.map (fun m =>
      { elementText := m.elementText
        nodeType := m.nodeType
        timestamp := m.timestamp
        screenshotThumb := m.screenshotThumb
        createdAt := m.createdAt }) }
  else none

/-- The `FlowSchema.parse`: `id` uuid, `name` 1–100 characters, `createdAt`
a datetime (zod's format validator, parameter `isDatetime`), optional
`updatedAt` datetime, and every step valid per `FlowStepSchema`. -/
def parseFlowSchema (isUuid isDatetime : String → Bool) (f : Flow) : Option Flow :=
  if isUuid f.id ∧ 1 ≤ f.name.length ∧ f.name.length ≤ 100 ∧ isDatetime f.createdAt
      ∧ f.updatedAt.all isDatetime then
    (f.steps.mapM (parseFlowStepSchema isUuid)).map (fun steps => { f with steps := steps })
  else none

/-- The `validateAndSanitizeFlow` from `src/utils/validation.ts`: parse via
`FlowSchema`, then rewrite each step with `sanitizeSelector` and
`sanitizeUrl`.  `none` models the thrown `ZodError`. -/
def validateAndSanitizeFlow (isUuid isDatetime : String → Bool) (f : Flow) : Option Flow :=
  (parseFlowSchema isUuid isDatetime f).map (fun v =>
    { v with steps := v.steps.map (fun s =>
        { s with selector := sanitizeSelector s.selector, url := sanitizeUrl s.url }) })

/-- The `saveFlow` from `src/utils/storage.ts`: validate and sanitize (a
`ZodError` is caught by `safeAsync`, yielding `false` with storage
untouched), stamp `updatedAt`, then replace the flow with the same id or
append.  Storage availability is assumed (the unavailable branch merely
returns `false`). -/
def saveFlow (isUuid isDatetime : String → Bool) (now : String)
    (flows : List Flow) (f : Flow) : Bool × List Flow :=
  match validateAndSanitizeFlow isUuid isDatetime f with
  | none => (false, flows)
  | some v =>
    let updatedFlow := { v with updatedAt := some now }
    match flows.findIdx? (fun g => g.id == v.id) with
    | some i => (true, flows.set i updatedFlow)
    | none => (true, flows ++ [updatedFlow])

/-! ## Helper lemmas -/

theorem cleanupOverlays_spec (s : PlaybackState) :
    cleanupOverlays s =
      { s with highlight := none, tooltip := none, mutationObserver := false } := by
  rcases s with ⟨ip, ci, fl, hi, tt, mo, kb⟩
  cases hi <;> cases tt <;> cases mo <;> rfl

theorem cleanup_spec (s : PlaybackState) :
    cleanup s =
      { s with highlight := none, tooltip := none, mutationObserver := false,
               keyboardHandler := false } := by
  rw [cleanup, cleanupOverlays_spec]
  rcases s with ⟨ip, ci, fl, hi, tt, mo, kb⟩
  cases kb <;> rfl

theorem stop_spec (s : PlaybackState) :
    stop s =
      { isPlaying := false, currentStepIndex := 0, flow := none, highlight := none,
        tooltip := none, mutationObserver := false, keyboardHandler := false } := by
  rw [stop, cleanup_spec]

/-! ## Claim theorems -/

/-- C8: playback `stop` is idempotent — a second `stop` reaches exactly
the state of the first (and the end state after any `stop` has no
highlight or tooltip overlay, a disconnected mutation observer, a
detached keyboard listener, flow cleared to `null` and the cursor reset
to 0).  `stop` is a total function of the engine state, so the second
call is safe by construction (no statement in its source can throw). -/
theorem c8_stop_idempotent (s : PlaybackState) :
    stop (stop s) = stop s ∧
      stop s =
        { isPlaying := false, currentStepIndex := 0, flow := none, highlight := none,
          tooltip := none, mutationObserver := false, keyboardHandler := false } := by
  constructor
  · rw [stop_spec (stop s), stop_spec s]
  · exact stop_spec s

/-- C5: an `ADD_STEP` message arriving when no recording session exists,
or when the session is not in state `recording`, makes the handler
return `success:false` with a reason and leave the background state —
in-memory session and persisted session alike — completely unchanged:
no session is created and no step is appended. -/
theorem c5_addStep_rejected_no_session (st : BackgroundState) (payload : Option FlowStep)
    (h : ∀ session, st.recordingSession = some session →
      session.state ≠ RecordingState.recording) :
    handleAddStep st payload =
      ({ success := false, error := some "No active recording session" }, st) := by
  unfold handleAddStep
  cases hm : st.recordingSession with
  | none => cases payload <;> rfl
  | some session =>
    cases payload with
    | none => rfl
    | some step =>
      have hne := h session hm
      simp only [if_neg hne]

/-- Witness for C5: a concrete `ADD_STEP` with no session in memory and
none in storage is rejected and changes nothing. -/
theorem c5_witness :
    handleAddStep { recordingSession := none, storedSession := none }
        (some { id := "s1", type := StepType.click, selector := "", url := "https://example.com/",
                explanation := "Click Save", order := 0 }) =
      ({ success := false, error := some "No active recording session" },
       { recordingSession := none, storedSession := none }) :=
  c5_addStep_rejected_no_session _ _ (by intro s hs; cases hs)

/-- Overwrite the `order` fields of a list of steps with consecutive
values starting at `k` (the reference sequence the `ADD_STEP` handler is
proved to produce). -/
def assignOrders (k : Nat) : List FlowStep → List FlowStep
  | [] => []
  | s :: rest => { s with order := k } :: assignOrders (k + 1) rest

theorem assignOrders_map_order (l : List FlowStep) :
    ∀ k, (assignOrders k l).map FlowStep.order = List.range' k l.length := by
  induction l with
  | nil => intro k; simp [assignOrders]
  | cons s rest ih =>
    intro k
    simp [assignOrders, List.range'_succ, ih]

theorem assignOrders_append_step (k : Nat) (s : FlowStep) (l : List FlowStep) :
    assignOrders k (s :: l) = { s with order := k } :: assignOrders (k + 1) l := rfl

theorem runAddSteps_accepted (l : List FlowStep) :
    ∀ (st : BackgroundState) (session : RecordingSession),
      st.recordingSession = some session → session.state = RecordingState.recording →
      ∃ session', (runAddSteps st (l.map some)).recordingSession = some session' ∧
        session'.state = RecordingState.recording ∧
        session'.steps = session.steps ++ assignOrders session.steps.length l := by
  induction l with
  | nil =>
    intro st session hmem hrec
    exact ⟨session, by simpa [runAddSteps, assignOrders] using hmem, hrec, by simp [assignOrders]⟩
  | cons s rest ih =>
    intro st session hmem hrec
    have hstep : runAddSteps st ((s :: rest).map some) =
        runAddSteps (handleAddStep st (some s)).2 (rest.map some) := by
      simp [runAddSteps]
    have hhandle : (handleAddStep st (some s)).2.recordingSession =
        some { session with
          steps := session.steps ++ [{ s with order := session.steps.length }]
          currentStepIndex := (session.steps ++ [{ s with order := session.steps.length }]).length - 1 } := by
      simp [handleAddStep, hmem, hrec, saveRecordingSession]
    obtain ⟨session', h1, h2, h3⟩ := ih (handleAddStep st (some s)).2 _ hhandle hrec
    refine ⟨session', by rwa [hstep], h2, ?_⟩
    rw [h3]
    simp only [List.length_append, List.length_cons, List.length_nil]
    rw [assignOrders_append_step, List.append_assoc]
    rfl

/-- C1: starting from an active recording session (state `recording`,
empty step list), any sequence of accepted `ADD_STEP` messages yields a
session whose steps are exactly the submitted steps in acceptance order,
each with its `order` overwritten by the step count at acceptance time —
so after `n` acceptances the `order` values are exactly `0..n-1`. -/
theorem c1_addStep_orders_exactly_range (st : BackgroundState)
    (session : RecordingSession) (l : List FlowStep)
    (hmem : st.recordingSession = some session)
    (hrec : session.state = RecordingState.recording)
    (hempty : session.steps = []) :
    ∃ session', (runAddSteps st (l.map some)).recordingSession = some session' ∧
      session'.steps = assignOrders 0 l ∧
      session'.steps.map FlowStep.order = List.range l.length := by
  obtain ⟨session', h1, _, h3⟩ := runAddSteps_accepted l st session hmem hrec
  rw [hempty] at h3
  simp only [List.nil_append, List.length_nil] at h3
  exact ⟨session', h1, h3, by rw [h3, assignOrders_map_order, List.range_eq_range']⟩

/-- Witness for C1: three concrete steps accepted in a row carry orders
`[0, 1, 2]`. -/
theorem c1_witness :
    ∃ session',
      (runAddSteps
          { recordingSession := some
              { state := RecordingState.recording, steps := [], currentStepIndex := 0,
                startTime := 0, tabId := some 1 }
            storedSession := none }
          ([{ id := "a", type := StepType.click, selector := "", url := "https://example.com/",
              explanation := "Click A", order := 7 },
            { id := "b", type := StepType.click, selector := "", url := "https://example.com/",
              explanation := "Click B", order := 7 },
            { id := "c", type := StepType.manual, selector := "", url := "https://example.com/",
              explanation := "Note", order := 7 }].map some)).recordingSession = some session' ∧
      session'.steps =
        assignOrders 0
          [{ id := "a", type := StepType.click, selector := "", url := "https://example.com/",
             explanation := "Click A", order := 7 },
           { id := "b", type := StepType.click, selector := "", url := "https://example.com/",
             explanation := "Click B", order := 7 },
           { id := "c", type := StepType.manual, selector := "", url := "https://example.com/",
             explanation := "Note", order := 7 }] ∧
      session'.steps.map FlowStep.order = List.range 3 :=
  c1_addStep_orders_exactly_range _ _ _ rfl rfl rfl

/-- A concrete session pinned to tab 1 that already holds one step, used
to exercise `START_RECORDING` while a session for a different tab is
active. -/
def tab1Session : RecordingSession :=
  { state := RecordingState.recording
    steps := [{ id := "s1", type := StepType.click, selector := "", url := "https://example.com/",
                explanation := "Click Save", order := 0 }]
    currentStepIndex := 0
    startTime := 0
    tabId := some 1 }

/-- C2 counterexample: with `tab1Session` (tab 1, one recorded step)
active, a `START_RECORDING` resolved to tab 2 does not return the
existing session's state unchanged: the handler replaces the session
with a fresh one — empty steps, `tabId` 2 — so the existing session's
steps and `tabId` are lost, contradicting the claim. -/
theorem c2_counterexample :
    (handleStartRecording
        { recordingSession := some tab1Session, storedSession := some tab1Session }
        none (some 2) none 5).2.recordingSession ≠ some tab1Session ∧
    (handleStartRecording
        { recordingSession := some tab1Session, storedSession := some tab1Session }
        none (some 2) none 5).2.recordingSession =
      some { state := RecordingState.recording, steps := [], currentStepIndex := 0,
             startTime := 5, tabId := some 2 } := by
  constructor
  · decide
  · rfl

/-- C2 (amended): whenever `START_RECORDING` resolves a tab id (from the
sender or the active-tab query), the handler unconditionally installs
and persists a fresh session — state `recording`, empty steps — pinned
to that tab, replacing any existing session regardless of which tab
owned it; the response is the content script's reply when forwarding
succeeds, and a synthetic `{success:true, state:"recording"}` when the
content script is unreachable. -/
theorem c2_amended_startRecording_replaces (st : BackgroundState)
    (senderTab activeTab : Option Nat) (content : Option StartResponse)
    (now tabId : Nat)
    (h : senderTab.orElse (fun _ => activeTab) = some tabId) :
    (handleStartRecording st senderTab activeTab content now).2 =
      { recordingSession := some
          { state := RecordingState.recording, steps := [], currentStepIndex := 0,
            startTime := now, tabId := some tabId }
        storedSession := some
          { state := RecordingState.recording, steps := [], currentStepIndex := 0,
            startTime := now, tabId := some tabId } } ∧
    (handleStartRecording st senderTab activeTab content now).1 =
      content.getD { success := true, dataState := some RecordingState.recording } := by
  unfold handleStartRecording
  rw [h]
  cases content <;> exact ⟨rfl, rfl⟩

/-- Witness for C2 (amended): the concrete replacement from the
counterexample scenario, produced by the amended theorem. -/
theorem c2_amended_witness :
    (handleStartRecording
        { recordingSession := some tab1Session, storedSession := some tab1Session }
        none (some 2) none 5).2 =
      { recordingSession := some
          { state := RecordingState.recording, steps := [], currentStepIndex := 0,
            startTime := 5, tabId := some 2 }
        storedSession := some
          { state := RecordingState.recording, steps := [], currentStepIndex := 0,
            startTime := 5, tabId := some 2 } } ∧
    (handleStartRecording
        { recordingSession := some tab1Session, storedSession := some tab1Session }
        none (some 2) none 5).1 =
      Option.getD none { success := true, dataState := some RecordingState.recording } :=
  c2_amended_startRecording_replaces _ none (some 2) none 5 2 rfl

/-- A content-script reply used to exercise the fourth resolution tier
of `GET_RECORDING_STATE`. -/
def contentTierReply : StateResponse :=
  { success := true
    data := some { isRecording := true, stepCount := 7, state := RecordingState.recording } }

/-- C3 counterexample: with no in-memory session and nothing persisted,
a `GET_RECORDING_STATE` whose sender is tab 1 is answered by forwarding
to that tab's content script — the handler returns the content script's
reply, not the idle report the claimed three-tier scheme requires. -/
theorem c3_counterexample :
    (handleGetRecordingState { recordingSession := none, storedSession := none }
        (some 1) (some contentTierReply)).1 = contentTierReply ∧
    contentTierReply ≠ idleStateResponse := by
  exact ⟨rfl, by decide⟩

/-- C3 (amended): `GET_RECORDING_STATE` resolves in four tiers, not
three: (1) the in-memory session is reported (with its `tabId`);
(2) otherwise a session persisted in storage is restored into memory and
reported (without `tabId`); (3) otherwise, when the sender is a tab, the
message is forwarded to that tab's content script and its reply is
returned verbatim; (4) otherwise — no sender tab, or the content script
unreachable — the idle report is returned.  In particular, a persisted
recording session holding 3 steps, reloaded by a fresh instance, is
reported as `isRecording:true, stepCount:3` via tier 2. -/
theorem c3_amended_four_tier_resolution (st : BackgroundState)
    (senderTab : Option Nat) (content : Option StateResponse) :
    (∀ s, st.recordingSession = some s →
      handleGetRecordingState st senderTab content =
        ({ success := true
           data := some
             { isRecording := decide (s.state = RecordingState.recording)
               stepCount := s.steps.length, state := s.state, tabId := s.tabId } }, st)) ∧
    (st.recordingSession = none → ∀ s, st.storedSession = some s →
      handleGetRecordingState st senderTab content =
        ({ success := true
           data := some
             { isRecording := decide (s.state = RecordingState.recording)
               stepCount := s.steps.length, state := s.state, tabId := none } },
         { st with recordingSession := some s })) ∧
    (st.recordingSession = none → st.storedSession = none →
      ∀ t r, senderTab = some t → content = some r →
        handleGetRecordingState st senderTab content = (r, st)) ∧
    (st.recordingSession = none → st.storedSession = none →
      (senderTab = none ∨ content = none) →
        handleGetRecordingState st senderTab content = (idleStateResponse, st)) := by
  refine ⟨?_, ?_, ?_, ?_⟩
  · intro s hs
    unfold handleGetRecordingState
    rw [hs]
  · intro hm s hs
    unfold handleGetRecordingState
    rw [hm, hs]
  · intro hm hst t r ht hr
    unfold handleGetRecordingState
    rw [hm, hst, ht, hr]
  · intro hm hst hor
    unfold handleGetRecordingState
    rw [hm, hst]
    rcases hor with h | h
    · rw [h]
    · rw [h]
      cases senderTab <;> rfl

/-- The background state produced by starting a recording on tab 1 and
accepting three `ADD_STEP` messages — the persisted copy of this session
holds 3 steps. -/
def threeStepRun : BackgroundState :=
  runAddSteps
    (handleStartRecording { recordingSession := none, storedSession := none }
      none (some 1) none 0).2
    ([{ id := "a", type := StepType.click, selector := "", url := "https://example.com/",
        explanation := "Click A", order := 0 },
      { id := "b", type := StepType.click, selector := "", url := "https://example.com/",
        explanation := "Click B", order := 0 },
      { id := "c", type := StepType.click, selector := "", url := "https://example.com/",
        explanation := "Click C", order := 0 }].map some)

/-- The session `threeStepRun` persists to storage, written out
explicitly. -/
def threeStepSession : RecordingSession :=
  { state := RecordingState.recording
    steps :=
      [{ id := "a", type := StepType.click, selector := "", url := "https://example.com/",
         explanation := "Click A", order := 0 },
       { id := "b", type := StepType.click, selector := "", url := "https://example.com/",
         explanation := "Click B", order := 1 },
       { id := "c", type := StepType.click, selector := "", url := "https://example.com/",
         explanation := "Click C", order := 2 }]
    currentStepIndex := 2
    startTime := 0
    tabId := some 1 }

/-- Witness for C3 (amended): simulate a process restart by loading the
persisted three-step session into a fresh instance (empty memory); tier
2 of the amended theorem reports `isRecording:true, stepCount:3`. -/
theorem c3_amended_witness :
    threeStepRun.storedSession = some threeStepSession ∧
    handleGetRecordingState
        { recordingSession := none, storedSession := threeStepRun.storedSession }
        none none =
      ({ success := true
         data := some
           { isRecording := true, stepCount := 3, state := RecordingState.recording,
             tabId := none } },
       { recordingSession := some threeStepSession,
         storedSession := some threeStepSession }) := by
  constructor
  · decide
  · have h := (c3_amended_four_tier_resolution
      { recordingSession := none, storedSession := threeStepRun.storedSession }
      none none).2.1 rfl threeStepSession (by decide)
    simpa using h

/-- A resolution function for a page on which no selector matches any
element. -/
def emptyPage : String → Option DomElement := fun _ => none

/-- A step whose recorded `url` is the empty string — a value
`sanitizeUrl` itself produces for any non-http/https capture, so flows
persisted through `saveFlow` can carry it. -/
def emptyUrlStep : FlowStep :=
  { id := "s", type := StepType.click, selector := "#missing",
    url := "", explanation := "Click the button", order := 0 }

/-- An active playback state over a one-step flow whose step has an
empty `url`. -/
def c7PlaybackState : PlaybackState :=
  { isPlaying := true
    currentStepIndex := 0
    flow := some
      { id := "f", name := "Demo", createdAt := "2024-01-01T00:00:00Z",
        steps := [emptyUrlStep] }
    keyboardHandler := true }

/-- C7 counterexample: `emptyUrlStep`'s selector matches no element on
the page, yet `goToStep 0` throws — `checkUrlMatch` runs
`new URL(step.url)` before the element lookup, and the constructor
throws on the empty string — so no element-not-found signal is emitted,
contradicting the claim that `goToStep` does not throw for every step
whose selector matches no element. -/
theorem c7_counterexample :
    findElement emptyPage emptyUrlStep.selector = none ∧
    (goToStep emptyPage "https://example.com/page" c7PlaybackState 0).thrown =
      some "Invalid URL" ∧
    (goToStep emptyPage "https://example.com/page" c7PlaybackState 0).events = [] := by
  exact ⟨rfl, rfl, rfl⟩

/-- C7 (amended): for every step whose recorded `url` (like the current
page URL) is accepted by the `URL` constructor and whose selector
matches no element, `goToStep` does not throw: it tears down any
existing highlight/tooltip overlays and the mutation observer, renders
no new overlay, signals element-not-found via the callback (and no
step-changed), and leaves `isPlaying`, the flow and the keyboard
listener intact, with the cursor set to the requested index, so playback
can still advance. -/
theorem c7_amended_element_not_found (resolve : String → Option DomElement)
    (currentHref : String) (s : PlaybackState) (flow : Flow) (index : Nat)
    (hflow : s.flow = some flow)
    (hidx : index < flow.steps.length)
    (hhref : (urlProtocol currentHref).isSome)
    (hurl : (urlProtocol (flow.steps.get ⟨index, hidx⟩).url).isSome)
    (hnf : findElement resolve (flow.steps.get ⟨index, hidx⟩).selector = none) :
    goToStep resolve currentHref s index =
      { thrown := none
        state :=
          { s with currentStepIndex := index, highlight := none, tooltip := none,
                   mutationObserver := false }
        events := [PlaybackEvent.elementNotFound] } := by
  obtain ⟨ph, hph⟩ := Option.isSome_iff_exists.mp hhref
  obtain ⟨pu, hpu⟩ := Option.isSome_iff_exists.mp hurl
  simp only [goToStep, hflow]
  rw [dif_pos hidx]
  simp only [checkUrlMatch, hph, hpu, hnf, handleElementNotFound]
  rw [cleanupOverlays_spec]

/-- Witness for C7 (amended): on a page with no matching element, a step
with a well-formed `https:` URL triggers the element-not-found path
without a throw. -/
theorem c7_amended_witness :
    goToStep emptyPage "https://example.com/page"
        { isPlaying := true
          currentStepIndex := 0
          flow := some
            { id := "f", name := "Demo", createdAt := "2024-01-01T00:00:00Z",
              steps := [{ id := "s", type := StepType.click, selector := "#missing",
                          url := "https://example.com/start", explanation := "Click the button",
                          order := 0 }] }
          keyboardHandler := true } 0 =
      { thrown := none
        state :=
          { isPlaying := true
            currentStepIndex := 0
            flow := some
              { id := "f", name := "Demo", createdAt := "2024-01-01T00:00:00Z",
                steps := [{ id := "s", type := StepType.click, selector := "#missing",
                            url := "https://example.com/start", explanation := "Click the button",
                            order := 0 }] }
            highlight := none
            tooltip := none
            mutationObserver := false
            keyboardHandler := true }
        events := [PlaybackEvent.elementNotFound] } := by
  have h := c7_amended_element_not_found emptyPage "https://example.com/page"
    { isPlaying := true
      currentStepIndex := 0
      flow := some
        { id := "f", name := "Demo", createdAt := "2024-01-01T00:00:00Z",
          steps := [{ id := "s", type := StepType.click, selector := "#missing",
                      url := "https://example.com/start", explanation := "Click the button",
                      order := 0 }] }
      keyboardHandler := true }
    { id := "f", name := "Demo", createdAt := "2024-01-01T00:00:00Z",
      steps := [{ id := "s", type := StepType.click, selector := "#missing",
                  url := "https://example.com/start", explanation := "Click the button",
                  order := 0 }] }
    0 rfl (by decide) (by decide) (by decide) rfl
  simpa using h

/-- The claim-level dangerous-text predicate: the lowercased text
contains one of the denylisted destructive verbs. -/
def mentionsDangerousKeyword (text : String) : Bool :=
  dangerousKeywords.any (fun kw => strIncludes (toLowerStr text) kw)

theorem isDangerousAction_of_mentions (e : DomElement) (hhtml : e.isHtmlElement = true)
    (hd : mentionsDangerousKeyword (e.textContent.getD "") = true ∨
          mentionsDangerousKeyword (e.ariaLabel.getD "") = true ∨
          (e.isButtonElement = true ∧ e.buttonType = "submit" ∧
           mentionsDangerousKeyword (e.closestFormText.getD "") = true)) :
    isDangerousAction e = true := by
  unfold mentionsDangerousKeyword at hd
  by_cases h1 : (dangerousKeywords.any fun kw =>
      strIncludes (toLowerStr (e.textContent.getD "")) kw) = true
  · simp [isDangerousAction, hhtml, h1]
  · by_cases h2 : (dangerousKeywords.any fun kw =>
        strIncludes (toLowerStr (e.ariaLabel.getD "")) kw) = true
    · simp [isDangerousAction, hhtml, h1, h2]
    · rcases hd with h | h | ⟨hb, hbt, hf⟩
      · exact absurd h h1
      · exact absurd h h2
      · cases hcf : e.closestFormText with
        | none =>
          rw [hcf] at hf
          exact absurd hf (by decide)
        | some formText =>
          rw [hcf] at hf
          simp only [Option.getD_some] at hf
          simp [isDangerousAction, hhtml, h1, h2, hb, hbt, hcf, hf]

theorem performStepAction_dangerous (resolve : String → Option DomElement)
    (currentHref : String) (step : FlowStep) (e : DomElement)
    (htype : step.type = StepType.click)
    (hres : findElement resolve step.selector = some e)
    (hd : mentionsDangerousKeyword (e.textContent.getD "") = true ∨
          mentionsDangerousKeyword (e.ariaLabel.getD "") = true ∨
          (e.isButtonElement = true ∧ e.buttonType = "submit" ∧
           mentionsDangerousKeyword (e.closestFormText.getD "") = true)) :
    (performStepAction resolve currentHref step).clicked = false ∧
    (performStepAction resolve currentHref step).actionPerformed = false := by
  unfold performStepAction
  rw [htype]
  simp only [hres]
  by_cases hh : e.isHtmlElement = true
  · have hda := isDangerousAction_of_mentions e hh hd
    simp [hda]
  · simp only [Bool.not_eq_true] at hh
    have hda : isDangerousAction e = false := by
      unfold isDangerousAction
      simp [hh]
    simp [hda, hh]

/-- C6: when `next()` executes a click step whose resolved element's
visible text, aria-label, or — for a submit button — enclosing form's
text contains a denylisted destructive verb (delete, remove, destroy,
clear, reset, cancel, close, logout, sign out), the element is never
clicked and the `onActionPerformed` callback does not fire for that
step. -/
theorem c6_dangerous_click_skipped (resolve : String → Option DomElement)
    (currentHref : String) (s : PlaybackState) (flow : Flow) (e : DomElement)
    (hflow : s.flow = some flow)
    (hidx : s.currentStepIndex < flow.steps.length)
    (htype : (flow.steps.get ⟨s.currentStepIndex, hidx⟩).type = StepType.click)
    (hres : findElement resolve (flow.steps.get ⟨s.currentStepIndex, hidx⟩).selector = some e)
    (hd : mentionsDangerousKeyword (e.textContent.getD "") = true ∨
          mentionsDangerousKeyword (e.ariaLabel.getD "") = true ∨
          (e.isButtonElement = true ∧ e.buttonType = "submit" ∧
           mentionsDangerousKeyword (e.closestFormText.getD "") = true)) :
    (next resolve currentHref s).1.clicked = false ∧
    (next resolve currentHref s).1.actionPerformed = false := by
  simp only [next, hflow]
  rw [dif_pos hidx]
  by_cases hlt : s.currentStepIndex < flow.steps.length - 1
  · simp only [if_pos hlt]
    exact performStepAction_dangerous resolve currentHref _ e htype hres hd
  · simp only [if_neg hlt]
    exact performStepAction_dangerous resolve currentHref _ e htype hres hd

/-- A button whose visible text is `Delete Account`. -/
def deleteAccountButton : DomElement :=
  { tagName := "BUTTON", textContent := some "Delete Account",
    isHtmlElement := true, isButtonElement := true, buttonType := "button" }

/-- A page on which the selector `#delete-account` resolves to the
`Delete Account` button and nothing else matches. -/
def deleteAccountPage : String → Option DomElement := fun selector =>
  if selector = "#delete-account" then some deleteAccountButton else none

/-- An active playback positioned on a click step targeting the
`Delete Account` button. -/
def c6PlaybackState : PlaybackState :=
  { isPlaying := true
    currentStepIndex := 0
    flow := some
      { id := "f", name := "Demo", createdAt := "2024-01-01T00:00:00Z",
        steps :=
          [{ id := "s0", type := StepType.click, selector := "#delete-account",
             url := "https://example.com/settings", explanation := "Click Delete Account",
             order := 0 },
           { id := "s1", type := StepType.manual, selector := "",
             url := "https://example.com/settings", explanation := "Done", order := 1 }] }
    keyboardHandler := true }

/-- Witness for C6: `next()` on the concrete `Delete Account` click step
performs no click and fires no `onActionPerformed`. -/
theorem c6_witness :
    (next deleteAccountPage "https://example.com/settings" c6PlaybackState).1.clicked = false ∧
    (next deleteAccountPage "https://example.com/settings" c6PlaybackState).1.actionPerformed
      = false :=
  c6_dangerous_click_skipped deleteAccountPage "https://example.com/settings"
    c6PlaybackState _ deleteAccountButton rfl (by decide) (by decide) (by decide)
    (Or.inl (by decide))

/-- C9: the recorder's capture-phase click handler produces no step —
nothing is created and nothing is forwarded to the session manager —
when the click target is a password input, or lies inside an
extension-owned overlay (a `[data-navio-extension]` ancestor). -/
theorem c9_recorder_ignores_protected_clicks (rec : RecorderState) (target : DomElement)
    (url : String) (screenshot : Option ScreenshotData) (id now : String)
    (h : target.hasNavioExtensionAncestor = true ∨
         (target.isInputElement = true ∧ target.inputType = "password")) :
    handleClick rec target url screenshot id now = none := by
  unfold handleClick
  split_ifs with g1 g2 g3
  · rfl
  · rfl
  · rfl
  · exfalso
    rcases h with h | ⟨h1, h2⟩
    · exact g2 h
    · exact g3 (by simp [h1, h2])

/-- Witness for C9: a click on a concrete password input while actively
recording captures nothing. -/
theorem c9_witness :
    handleClick { isRecording := true, isPaused := false }
        { tagName := "INPUT", isInputElement := true, inputType := "password" }
        "https://example.com/login" none "id1" "2024-01-01T00:00:00Z" = none :=
  c9_recorder_ignores_protected_clicks _ _ _ _ _ _ (Or.inr ⟨rfl, rfl⟩)

theorem sizeKB_lt_threshold (n : Nat) :
    ((n : ℚ) / 1024 < (SCREENSHOT_CONFIG.FULL_SIZE_THRESHOLD_KB : ℚ)) ↔ n < 204800 := by
  rw [div_lt_iff₀ (by norm_num : (0:ℚ) < 1024)]
  constructor
  · intro h
    have hq : (n : ℚ) < 204800 := by
      have : ((SCREENSHOT_CONFIG.FULL_SIZE_THRESHOLD_KB : ℚ)) * 1024 = 204800 := by
        norm_num [SCREENSHOT_CONFIG]
      rwa [this] at h
    exact_mod_cast hq
  · intro h
    have hq : (n : ℚ) < 204800 := by exact_mod_cast h
    have : ((SCREENSHOT_CONFIG.FULL_SIZE_THRESHOLD_KB : ℚ)) * 1024 = 204800 := by
      norm_num [SCREENSHOT_CONFIG]
    rwa [this]

/-- The recorder's screenshot wiring in `captureClick`: the processed
result's fields are copied verbatim into the step's screenshot meta. -/
def screenshotDataOf (r : ScreenshotResult) : ScreenshotData :=
  { screenshotThumb := some r.thumbnail
    screenshotFull := r.full
    screenshotIndexedDB := r.indexedDB }

/-- C4: screenshot routing.  A full-resolution image strictly below
200KB is lightly compressed at quality 0.85 and kept inline
(`screenshotIndexedDB:false`, `screenshotFull` populated) — and the
save-time relocation loop leaves such a step untouched.  An image of
200KB or more is flagged `screenshotIndexedDB:true`; its raw data URL
rides along inline only until the flow is saved, at which point the
relocation loop moves it into the IndexedDB blob store under
`flowId_stepId` and deletes the inline `screenshotFull` field from the
step record. -/
theorem c4_screenshot_routing (compress : ℚ → Option Nat → String → String)
    (blobSize : String → Nat) (raw url id now flowId : String) (e : DomElement)
    (store : List (String × String)) :
    (blobSize raw < 204800 →
      captureAndProcessScreenshot compress blobSize raw =
        { thumbnail := generateThumbnail compress raw
          full := some (compress SCREENSHOT_CONFIG.FULL_COMPRESSION_QUALITY none raw)
          indexedDB := some false } ∧
      (∃ m, (captureClick e url
            (some (screenshotDataOf (captureAndProcessScreenshot compress blobSize raw)))
            id now).meta = some m ∧
          m.screenshotIndexedDB = some false ∧
          m.screenshotFull =
            some (compress SCREENSHOT_CONFIG.FULL_COMPRESSION_QUALITY none raw)) ∧
      relocateStepScreenshot flowId store
          (captureClick e url
            (some (screenshotDataOf (captureAndProcessScreenshot compress blobSize raw)))
            id now) =
        (captureClick e url
          (some (screenshotDataOf (captureAndProcessScreenshot compress blobSize raw)))
          id now, store)) ∧
    (204800 ≤ blobSize raw → raw ≠ "" →
      captureAndProcessScreenshot compress blobSize raw =
        { thumbnail := generateThumbnail compress raw
          full := some raw
          indexedDB := some true } ∧
      (∃ m, (relocateStepScreenshot flowId store
            (captureClick e url
              (some (screenshotDataOf (captureAndProcessScreenshot compress blobSize raw)))
              id now)).1.meta = some m ∧
          m.screenshotIndexedDB = some true ∧
          m.screenshotFull = none) ∧
      (relocateStepScreenshot flowId store
          (captureClick e url
            (some (screenshotDataOf (captureAndProcessScreenshot compress blobSize raw)))
            id now)).2 =
        (flowId ++ "_" ++ id, raw) :: store) := by
  constructor
  · intro hlt
    have hcond : ((blobSize raw : ℚ) / 1024 < (SCREENSHOT_CONFIG.FULL_SIZE_THRESHOLD_KB : ℚ)) :=
      (sizeKB_lt_threshold _).mpr hlt
    have hproc : captureAndProcessScreenshot compress blobSize raw =
        { thumbnail := generateThumbnail compress raw
          full := some (compress SCREENSHOT_CONFIG.FULL_COMPRESSION_QUALITY none raw)
          indexedDB := some false } := by
      unfold captureAndProcessScreenshot
      rw [if_pos hcond]
    refine ⟨hproc, ⟨?_, ?_⟩⟩
    · refine ⟨_, rfl, ?_, ?_⟩
      · simp [captureClick, createFlowStep, screenshotDataOf, hproc]
      · simp [captureClick, createFlowStep, screenshotDataOf, hproc]
    · rw [hproc]
      simp [relocateStepScreenshot, captureClick, createFlowStep, screenshotDataOf]
  · intro hge hraw
    have hcond : ¬ ((blobSize raw : ℚ) / 1024 < (SCREENSHOT_CONFIG.FULL_SIZE_THRESHOLD_KB : ℚ)) := by
      rw [sizeKB_lt_threshold]
      omega
    have hproc : captureAndProcessScreenshot compress blobSize raw =
        { thumbnail := generateThumbnail compress raw
          full := some raw
          indexedDB := some true } := by
      unfold captureAndProcessScreenshot
      rw [if_neg hcond]
    refine ⟨hproc, ?_, ?_⟩
    · refine ⟨{ elementText := some (getElementText e)
                nodeType := some (getElementNodeType e)
                timestamp := some now
                screenshotThumb := some (generateThumbnail compress raw)
                screenshotFull := none
                screenshotIndexedDB := some true
                createdAt := some now }, ?_, rfl, rfl⟩
      rw [hproc]
      simp [relocateStepScreenshot, captureClick, createFlowStep, screenshotDataOf, hraw]
    · rw [hproc]
      simp [relocateStepScreenshot, captureClick, createFlowStep, screenshotDataOf,
        saveScreenshot, hraw]

/-- Identity compressor used to instantiate the abstract canvas
compressor in the C4 witness. -/
def c4Compress : ℚ → Option Nat → String → String := fun _ _ s => s

/-- Blob-size oracle reporting 300000 bytes (≥ 200KB) for any data URL,
for the large-screenshot branch of the C4 witness. -/
def c4BigBlobSize : String → Nat := fun _ => 300000

/-- A plain button element clicked in the C4 witness scenario. -/
def c4Button : DomElement :=
  { tagName := "BUTTON", textContent := some "Save" }

/-- Witness for C4: a 4-byte screenshot is stored inline with
`screenshotIndexedDB:false` and survives relocation untouched; a
300000-byte screenshot is flagged for IndexedDB and, at save time, moves
to the blob store under `flow1_id2` with its inline field deleted. -/
theorem c4_witness :
    (captureAndProcessScreenshot c4Compress String.length "tiny" =
        { thumbnail := generateThumbnail c4Compress "tiny"
          full := some (c4Compress SCREENSHOT_CONFIG.FULL_COMPRESSION_QUALITY none "tiny")
          indexedDB := some false } ∧
      (∃ m, (captureClick c4Button "https://example.com/"
            (some (screenshotDataOf (captureAndProcessScreenshot c4Compress String.length "tiny")))
            "id1" "t0").meta = some m ∧
          m.screenshotIndexedDB = some false ∧
          m.screenshotFull =
            some (c4Compress SCREENSHOT_CONFIG.FULL_COMPRESSION_QUALITY none "tiny")) ∧
      relocateStepScreenshot "flow1" []
          (captureClick c4Button "https://example.com/"
            (some (screenshotDataOf (captureAndProcessScreenshot c4Compress String.length "tiny")))
            "id1" "t0") =
        (captureClick c4Button "https://example.com/"
          (some (screenshotDataOf (captureAndProcessScreenshot c4Compress String.length "tiny")))
          "id1" "t0", [])) ∧
    (captureAndProcessScreenshot c4Compress c4BigBlobSize "rawdata" =
        { thumbnail := generateThumbnail c4Compress "rawdata"
          full := some "rawdata"
          indexedDB := some true } ∧
      (∃ m, (relocateStepScreenshot "flow1" []
            (captureClick c4Button "https://example.com/"
              (some (screenshotDataOf (captureAndProcessScreenshot c4Compress c4BigBlobSize "rawdata")))
              "id2" "t0")).1.meta = some m ∧
          m.screenshotIndexedDB = some true ∧
          m.screenshotFull = none) ∧
      (relocateStepScreenshot "flow1" []
          (captureClick c4Button "https://example.com/"
            (some (screenshotDataOf (captureAndProcessScreenshot c4Compress c4BigBlobSize "rawdata")))
            "id2" "t0")).2 =
        [("flow1" ++ "_" ++ "id2", "rawdata")]) :=
  ⟨(c4_screenshot_routing c4Compress String.length "tiny" "https://example.com/" "id1" "t0"
      "flow1" c4Button []).1 (by decide),
   (c4_screenshot_routing c4Compress c4BigBlobSize "rawdata" "https://example.com/" "id2" "t0"
      "flow1" c4Button []).2 (by decide) (by decide)⟩

theorem parseFlowStepSchema_url (isUuid : String → Bool) (s s' : FlowStep)
    (h : parseFlowStepSchema isUuid s = some s') : s'.url = s.url := by
  unfold parseFlowStepSchema at h
  split at h
  · cases h; rfl
  · cases h

theorem mapM_parse_urls (isUuid : String → Bool) :
    ∀ (l l' : List FlowStep),
      l.mapM (parseFlowStepSchema isUuid) = some l' →
      l'.map FlowStep.url = l.map FlowStep.url := by
  intro l
  induction l with
  | nil =>
    intro l' h
    simp only [List.mapM_nil, pure, Option.some.injEq] at h
    simp [← h]
  | cons a as ih =>
    intro l' h
    rw [List.mapM_cons] at h
    cases hp : parseFlowStepSchema isUuid a with
    | none => rw [hp] at h; simp at h
    | some b =>
      rw [hp] at h
      cases hm : as.mapM (parseFlowStepSchema isUuid) with
      | none => rw [hm] at h; simp at h
      | some bs =>
        rw [hm] at h
        simp at h
        rw [← h]
        simp [parseFlowStepSchema_url isUuid a b hp, ih bs hm]

/-- C10: a flow that otherwise satisfies the schema but contains a step
whose url parses as a valid URL with a protocol other than `http:` or
`https:` (e.g. a `javascript:` URL) is not rejected: validation succeeds
and the returned flow carries that step with its url replaced by the
empty string — so `saveFlow` accepts it and persists a step whose url is
empty. -/
theorem c10_nonhttp_url_sanitized_to_empty (isUuid isDatetime : String → Bool)
    (now : String) (flows : List Flow) (f : Flow) (i : Nat) (p : String)
    (hi : i < f.steps.length)
    (hvalid : (parseFlowSchema isUuid isDatetime f).isSome = true)
    (hp : urlProtocol (f.steps.get ⟨i, hi⟩).url = some p)
    (hp1 : p ≠ "http:") (hp2 : p ≠ "https:") :
    ∃ f', validateAndSanitizeFlow isUuid isDatetime f = some f' ∧
      (f'.steps.map FlowStep.url)[i]? = some "" ∧
      (saveFlow isUuid isDatetime now flows f).1 = true := by
  obtain ⟨v, hv⟩ := Option.isSome_iff_exists.mp hvalid
  have hvs : v.steps.map FlowStep.url = f.steps.map FlowStep.url := by
    unfold parseFlowSchema at hv
    split at hv
    · cases hsteps : f.steps.mapM (parseFlowStepSchema isUuid) with
      | none => rw [hsteps] at hv; simp at hv
      | some steps =>
        rw [hsteps] at hv
        simp only [Option.map_some', Option.some.injEq] at hv
        rw [← hv]
        exact mapM_parse_urls isUuid f.steps steps hsteps
    · cases hv
  have hsan : sanitizeUrl (f.steps.get ⟨i, hi⟩).url = "" := by
    simp only [sanitizeUrl, hp]
    rw [if_pos ⟨hp1, hp2⟩]
  refine ⟨_, by rw [validateAndSanitizeFlow, hv]; rfl, ?_, ?_⟩
  · have hmap : ((v.steps.map (fun s =>
        { s with selector := sanitizeSelector s.selector,
                 url := sanitizeUrl s.url })).map FlowStep.url) =
        (v.steps.map FlowStep.url).map sanitizeUrl := by
      rw [List.map_map, List.map_map]
      rfl
    rw [hmap, hvs]
    rw [List.getElem?_map, List.getElem?_map]
    rw [List.getElem?_eq_getElem hi]
    simp only [Option.map_some', Option.some.injEq]
    rw [List.get_eq_getElem] at hsan
    exact hsan
  · unfold saveFlow
    rw [validateAndSanitizeFlow, hv]
    simp only [Option.map_some']
    split <;> rfl

/-- A concrete flow whose single step carries a `javascript:` URL. -/
def jsUrlFlow : Flow :=
  { id := "u1"
    name := "Demo"
    createdAt := "2024-01-01T00:00:00Z"
    steps := [{ id := "u2", type := StepType.click, selector := "#btn",
                url := "javascript:alert(1)", explanation := "Click the button",
                order := 0 }] }

/-- Witness for C10: the `javascript:alert(1)` step passes validation
and comes back with an empty url, and `saveFlow` reports success. -/
theorem c10_witness :
    ∃ f', validateAndSanitizeFlow (fun _ => true) (fun _ => true) jsUrlFlow = some f' ∧
      (f'.steps.map FlowStep.url)[0]? = some "" ∧
      (saveFlow (fun _ => true) (fun _ => true) "2024-02-02T00:00:00Z" [] jsUrlFlow).1 = true :=
  c10_nonhttp_url_sanitized_to_empty (fun _ => true) (fun _ => true)
    "2024-02-02T00:00:00Z" [] jsUrlFlow 0 "javascript:" (by decide) (by decide)
    (by decide) (by decide) (by decide)

end Navio
